import Mathlib

/-!
# HeartGuard feature-normalization pipeline: a shallow embedding

This file embeds the core data pipeline of the HeartGuard repository
(`src/preprocess.py`, `src/utils.py`, and the prediction/bucketing code of
`app/streamlit_app.py`) as executable Lean definitions, and proves or refutes
the frozen specification claims about it.

Modelling conventions:
* A pandas cell value is a `Value`: a rational number (Python int/float), a
  string, or the missing marker `Value.na` (NaN).  Machine floats are modelled
  by `ℚ`; the claims under study concern control flow, column structure and
  exact algebraic identities, none of which depend on rounding.
* A `DataFrame` is an ordered list of named columns `(name, values)`.
* A column has pandas "object" dtype exactly when it contains a string value;
  otherwise it is numeric (NaN alone is a float, hence numeric).
* `numpy.sqrt` (used by `StandardScaler` to turn a variance into a standard
  deviation) is irrational-valued in general, so the scaler is parameterised
  by an arbitrary square-root function `sq : ℚ → ℚ`.  Every theorem below
  holds for all `sq`; no claim depends on the numeric value of a standard
  deviation.
* Python `str.strip`/`str.lower` and `float(...)` parsing are implemented
  character-structurally (`trimString`, `lowerString`, `parseFloat?`).
  `parseFloat?` covers signed decimal literals; exotic forms (`"1e3"`,
  `"inf"`, `"nan"`) are treated as non-numeric, which no claim exercises.
-/

/-- A raw tabular cell value: a number (Python int/float, modelled by `ℚ`),
a string, or the missing marker NaN. -/
inductive Value where
  | num (q : ℚ)
  | str (s : String)
  | na
deriving DecidableEq, BEq, Repr

/-- A named column of a pandas DataFrame. -/
abbrev Column := String × List Value

/-- A DataFrame: an ordered list of named columns. -/
abbrev DataFrame := List Column

/-- `True` when the value is a string; a pandas column holding any string has
"object" dtype. -/
def Value.isStr : Value → Bool
  | .str _ => true
  | _ => false

/-- `FEATURE_COLS` from `src/preprocess.py`: the canonical 8-field schema. -/
def FEATURE_COLS : List String :=
  ["age", "sex", "trestbps", "chol", "fbs", "thalach", "exang", "oldpeak"]

/-- `TARGET_COL` from `src/preprocess.py`. -/
def TARGET_COL : String := "target"

/-- `COLUMN_MAP_CANDIDATES` from `src/preprocess.py`: canonical name to
accepted variants, in source (dict insertion) order. -/
def COLUMN_MAP_CANDIDATES : List (String × List String) :=
  [ ("trestbps", ["trestbps", "restingbp", "trestbp", "restbp", "resting_blood_pressure"]),
    ("chol", ["chol", "serum_chol", "cholesterol"]),
    ("thalach", ["thalach", "max_heart_rate", "thalachh", "max_heart_rate_achieved", "maxhr"]),
    ("oldpeak", ["oldpeak", "st_depression", "st_depress"]),
    ("exang", ["exang", "exercise_angina", "exAng", "exercise_induced_angina"]),
    ("fbs", ["fbs", "fasting_blood_sugar", "fasting_bs", "fastingbs"]),
    ("sex", ["sex", "gender"]),
    ("age", ["age"]),
    ("target", ["target", "target_class", "heart_disease", "disease", "output", "hd", "num", "heartdisease"]) ]

/-- Lowercase a string character by character (Python `str.lower`, ASCII). -/
def lowerString (s : String) : String := String.mk (s.data.map Char.toLower)

/-- Strip leading and trailing whitespace from a character list. -/
def trimChars (cs : List Char) : List Char :=
  ((cs.dropWhile Char.isWhitespace).reverse.dropWhile Char.isWhitespace).reverse

/-- Strip leading and trailing whitespace (Python `str.strip`). -/
def trimString (s : String) : String := String.mk (trimChars s.data)

/-- The `cols = {str(c).lower(): c for c in df.columns}` dict of `map_columns`:
look up a lowercase key, the *last* column with that lowercase name winning
(later dict-comprehension entries overwrite earlier ones). -/
def colsLookup (names : List String) (key : String) : Option String :=
  names.foldl (fun acc c => if lowerString c == key then some c else acc) none

/-- Python dict assignment `m[k] = v`: overwrite an existing binding for `k`
in place, else append a new one. -/
def dictInsert (m : List (String × String)) (k v : String) : List (String × String) :=
  if m.any (fun p => p.1 == k) then
    m.map (fun p => if p.1 == k then (k, v) else p)
  else m ++ [(k, v)]

/-- The `name_map` built by `map_columns`: for each canonical name, the first
variant whose lowercase form matches an input column name (case-insensitively)
binds that original column name to the canonical name. -/
def buildNameMap (names : List String) : List (String × String) :=
  COLUMN_MAP_CANDIDATES.foldl
    (fun nm cand =>
      match cand.2.findSome? (fun v => colsLookup names (lowerString v)) with
      | some orig => dictInsert nm orig cand.1
      | none => nm)
    []

/-- `df.rename(columns=name_map)` applied to one column name. -/
def renameWith (nm : List (String × String)) (c : String) : String :=
  (nm.lookup c).getD c

/-- `map_columns` from `src/preprocess.py`: build the variant name map and
rename matching columns to their canonical names (a total function — it never
raises for any input table). -/
def mapColumns (df : DataFrame) : DataFrame :=
  let nm := buildNameMap (df.map Prod.fst)
  if nm.isEmpty then df
  else df.map (fun col => (renameWith nm col.1, col.2))

/-- Concrete input table whose single column name matches no accepted variant. -/
def dfUnmatched : DataFrame := [("foo", [Value.num 1])]

/-- The canonical names exposed by the Column Resolver's mapping table. -/
def canonicalNames : List String := COLUMN_MAP_CANDIDATES.map Prod.fst

/-- **C10.** `map_columns` only renames column headers: the output table has
the same number of columns and exactly the same cell values (hence the same
number of rows) as the input; being a total function, it never raises. -/
theorem mapColumns_frame (df : DataFrame) :
    (mapColumns df).length = df.length ∧
      (mapColumns df).map Prod.snd = df.map Prod.snd := by
  unfold mapColumns
  by_cases h : (buildNameMap (df.map Prod.fst)).isEmpty <;>
    simp [h, List.map_map, Function.comp]

/-- **C3 counterexample.** The claim says every input column matching no
accepted variant is dropped and only canonical names are exposed; but
`map_columns` keeps the unmatched column `"foo"` under its original,
non-canonical name. -/
theorem mapColumns_keeps_unmatched :
    mapColumns dfUnmatched = dfUnmatched ∧ "foo" ∉ canonicalNames := by
  constructor
  · decide
  · decide

/-- **C3 (amended).** `map_columns` renames each column via the variant name
map, and passes every column whose name the map does not mention through
unchanged (columns are never dropped, so the output keys are not restricted to
the canonical schema). -/
theorem mapColumns_renames_only (df : DataFrame) (c : Column) (hc : c ∈ df) :
    (renameWith (buildNameMap (df.map Prod.fst)) c.1, c.2) ∈ mapColumns df ∧
      ((buildNameMap (df.map Prod.fst)).lookup c.1 = none → c ∈ mapColumns df) := by
  unfold mapColumns
  by_cases h : (buildNameMap (df.map Prod.fst)).isEmpty
  · have h' : buildNameMap (df.map Prod.fst) = [] := by
      simpa [List.isEmpty_iff] using h
    refine ⟨?_, fun _ => by simp [h]; exact hc⟩
    simp only [h, if_true]
    simpa [renameWith, h'] using hc
  · refine ⟨?_, fun hnone => ?_⟩
    · rw [if_neg h]
      exact List.mem_map.mpr ⟨c, hc, rfl⟩
    · rw [if_neg h]
      refine List.mem_map.mpr ⟨c, hc, ?_⟩
      simp [renameWith, hnone]

/-- Witness for `mapColumns_renames_only`: the unmatched column
`("foo", [1])` of a concrete two-column table survives `map_columns`
unchanged. -/
theorem mapColumns_renames_only_witness :
    ("foo", [Value.num 1]) ∈ mapColumns [("foo", [Value.num 1]), ("gender", [Value.num 1])] :=
  (mapColumns_renames_only [("foo", [Value.num 1]), ("gender", [Value.num 1])]
      ("foo", [Value.num 1]) (List.Mem.head _)).2 (by decide)

/-- Digits of a numeral to a natural number (most significant first). -/
def natOfDigits (cs : List Char) : Nat :=
  cs.foldl (fun n c => n * 10 + (c.toNat - 48)) 0

/-- Split a character list at the first `'.'`, if any. -/
def breakDot : List Char → List Char × Option (List Char)
  | [] => ([], none)
  | c :: rest =>
    if c = '.' then ([], some rest)
    else
      let p := breakDot rest
      (c :: p.1, p.2)

/-- Python `float(s)` on signed decimal literals: optional surrounding
whitespace, optional sign, digits with an optional decimal point (at least one
digit overall).  Exponent/`inf`/`nan` forms are treated as unparseable; no
claim exercises them. -/
def parseFloat? (s : String) : Option ℚ :=
  let cs := trimChars s.data
  let sb : ℚ × List Char :=
    match cs with
    | '-' :: r => (-1, r)
    | '+' :: r => (1, r)
    | _ => (1, cs)
  match breakDot sb.2 with
  | (ip, none) =>
    if ip.isEmpty ∨ ¬ ip.all Char.isDigit then none
    else some (sb.1 * (natOfDigits ip : ℚ))
  | (ip, some fp) =>
    if (ip.isEmpty ∧ fp.isEmpty) ∨ ¬ ip.all Char.isDigit ∨ ¬ fp.all Char.isDigit then none
    else some (sb.1 * ((natOfDigits ip : ℚ) + (natOfDigits fp : ℚ) / (10 : ℚ) ^ fp.length))

/-- numpy `astype(int)` on a float: truncation toward zero. -/
def truncQ (q : ℚ) : ℚ := if 0 ≤ q then (⌊q⌋ : ℚ) else (⌈q⌉ : ℚ)

/-- Python `str(v)`.  Integral numbers print as Python ints (`"1"`); NaN
prints as `"nan"`.  Non-integral rationals print in `ℚ` notation, which never
collides with any accepted token, so every decision below is unaffected. -/
def strOfValue : Value → String
  | .num q => if q.den = 1 then toString q.num else toString q
  | .str s => s
  | .na => "nan"

/-- Python `isinstance(v, (int, float)) and v == 1`. -/
def Value.numEqOne : Value → Bool
  | .num q => q == 1
  | _ => false

/-- The fbs/exang lambda of `preprocess_features`:
`1 if (str(v).strip() in ("1", "true", "True") or (isinstance(v, (int, float)) and v == 1)) else 0`. -/
def flagNormalize (v : Value) : ℚ :=
  if trimString (strOfValue v) ∈ (["1", "true", "True"] : List String) ∨ v.numEqOne then 1
  else 0

/-- The `.map({...})` dict of the sex block in `preprocess_features`: exact
(case-sensitive) lookup; Python `1 == 1.0` makes the numeric keys match any
number equal to 0 or 1. -/
def sexMapLookup : Value → Option ℚ
  | .str s =>
    if s = "male" ∨ s = "m" ∨ s = "1" then some 1
    else if s = "female" ∨ s = "f" ∨ s = "0" then some 0
    else none
  | .num q => if q = 1 then some 1 else if q = 0 then some 0 else none
  | .na => none

/-- One cell of `astype(float)` / `pd.to_numeric`: numbers and NaN pass
through, strings must parse as numerals. -/
def castValue? : Value → Option Value
  | .num q => some (Value.num q)
  | .na => some Value.na
  | .str s => (parseFloat? s).map Value.num

/-- Column-level `astype(float)` / `pd.to_numeric`: succeeds only if every
cell casts. -/
def castNumeric? : List Value → Option (List Value)
  | [] => some []
  | v :: rest =>
    match castValue? v, castNumeric? rest with
    | some w, some ws => some (w :: ws)
    | _, _ => none

/-- The `except` lambda of the sex block:
`1 if str(v).lower().strip() in ("male", "m") else 0`. -/
def sexFallback (v : Value) : ℚ :=
  if trimString (lowerString (strOfValue v)) = "male" ∨
      trimString (lowerString (strOfValue v)) = "m" then 1
  else 0

/-- The sex block of `preprocess_features` (lines 82–91): dict-map with
fill-back of unmapped values; then, if the column still has object dtype,
`astype(float).fillna(0).astype(int)` when the whole column casts, else the
lowercase male/m re-encoding lambda applied to every value of the column. -/
def sexNormalize (col : List Value) : List Value :=
  let mapped := col.map (fun v =>
    match sexMapLookup v with
    | some q => Value.num q
    | none => v)
  if mapped.any Value.isStr then
    match castNumeric? mapped with
    | some ws =>
      ws.map (fun w =>
        match w with
        | .na => Value.num 0
        | .num q => Value.num (truncQ q)
        | .str s => Value.str s)
    | none => mapped.map (fun v => Value.num (sexFallback v))
  else mapped

/-- **C7.** The fbs/exang flag normalization maps `v` to 1 exactly when the
stripped string form of `v` is `"1"`, `"true"` or `"True"`, or `v` is a number
equal to 1; every other value maps to 0, so normalized flag columns contain
only values in {0, 1}. -/
theorem flagNormalize_spec (v : Value) :
    (flagNormalize v = 1 ↔
      trimString (strOfValue v) = "1" ∨ trimString (strOfValue v) = "true" ∨
        trimString (strOfValue v) = "True" ∨ v = Value.num 1) ∧
    (flagNormalize v = 0 ∨ flagNormalize v = 1) := by
  have hsplit : flagNormalize v = 0 ∨ flagNormalize v = 1 := by
    unfold flagNormalize; split
    · exact Or.inr rfl
    · exact Or.inl rfl
  refine ⟨?_, hsplit⟩
  unfold flagNormalize
  split
  next h =>
    simp only [eq_self_iff_true, true_iff]
    rcases h with hmem | hone
    · simp only [List.mem_cons, List.not_mem_nil, or_false] at hmem
      tauto
    · cases v with
      | num q =>
        have : q = 1 := by simpa [Value.numEqOne] using hone
        exact Or.inr (Or.inr (Or.inr (by rw [this])))
      | str s => simp [Value.numEqOne] at hone
      | na => simp [Value.numEqOne] at hone
  next h =>
    constructor
    · intro h01; norm_num at h01
    · intro hr
      exfalso
      apply h
      rcases hr with h1 | h1 | h1 | h1
      · exact Or.inl (by simp [h1])
      · exact Or.inl (by simp [h1])
      · exact Or.inl (by simp [h1])
      · exact Or.inr (by simp [h1, Value.numEqOne])

/-- **C2 counterexample.** The claim says any sex value outside the accepted
sets is passed through to the output unchanged; but the string `"unknown"`
(an object-dtype column that does not cast to float) is coerced to 0 by the
fallback lambda, not passed through. -/
theorem sexNormalize_coerces_unrecognized :
    sexNormalize [Value.str "unknown"] = [Value.num 0] ∧
      Value.str "unknown" ≠ Value.num 0 := by
  constructor
  · decide
  · decide

/-- **C2 (amended).** On a single-value sex column: the dict lookup matches
case-sensitively (`"male"`, `"m"`, `"1"`, and numbers equal to 1 give 1;
`"female"`, `"f"`, `"0"`, and numbers equal to 0 give 0).  An unmatched
number or NaN passes through unchanged, but an unmatched string does not:
if it parses as a number the column is cast (truncated to int), otherwise the
fallback lambda re-encodes it to 1 when it strips/lowercases to `"male"` or
`"m"` and to 0 otherwise. -/
theorem sexNormalize_singleton (v : Value) :
    sexNormalize [v] =
      [match sexMapLookup v with
       | some q => Value.num q
       | none =>
         match v with
         | Value.num q => Value.num q
         | Value.na => Value.na
         | Value.str s =>
           match parseFloat? s with
           | some q => Value.num (truncQ q)
           | none => Value.num (sexFallback (Value.str s))] := by
  cases v with
  | na => simp [sexNormalize, sexMapLookup, Value.isStr]
  | num q =>
    unfold sexNormalize
    rcases h : sexMapLookup (Value.num q) with - | q' <;>
      simp [h, Value.isStr]
  | str s =>
    unfold sexNormalize
    rcases h : sexMapLookup (Value.str s) with - | q'
    · rcases hp : parseFloat? s with - | q' <;>
        simp [h, hp, Value.isStr, castNumeric?, castValue?]
    · simp [h, Value.isStr]

/-- Numeric entries of a column, NaN skipped (pandas `skipna` semantics). -/
def numsOf (vs : List Value) : List ℚ :=
  vs.filterMap (fun v =>
    match v with
    | .num q => some q
    | _ => none)

/-- Insert into a sorted list of rationals. -/
def insertSorted (x : ℚ) : List ℚ → List ℚ
  | [] => [x]
  | y :: ys => if x ≤ y then x :: y :: ys else y :: insertSorted x ys

/-- Sort a list of rationals ascending. -/
def sortQ (l : List ℚ) : List ℚ := l.foldr insertSorted []

/-- pandas `Series.median` over the non-missing entries: middle element for
odd length, mean of the two middle elements for even length, `none` (NaN) for
an empty list. -/
def medianQ (l : List ℚ) : Option ℚ :=
  let s := sortQ l
  let n := s.length
  if n = 0 then none
  else if n % 2 = 1 then some (s.getD (n / 2) 0)
  else some ((s.getD (n / 2 - 1) 0 + s.getD (n / 2) 0) / 2)

/-- A column is numeric-kinded (`dtype.kind in "biufc"`) when it holds no
string. -/
def isNumericCol (vs : List Value) : Bool := !vs.any Value.isStr

/-- `fillna(med)`: replace NaN by the median. -/
def fillNaWith (m : ℚ) (vs : List Value) : List Value :=
  vs.map (fun v =>
    match v with
    | .na => Value.num m
    | w => w)

/-- Forward fill: replace NaN with the last preceding non-missing value. -/
def ffillGo (last : Option Value) : List Value → List Value
  | [] => []
  | v :: rest =>
    match v with
    | .na =>
      match last with
      | some w => w :: ffillGo (some w) rest
      | none => Value.na :: ffillGo none rest
    | w => w :: ffillGo (some w) rest

/-- pandas `fillna(method="ffill")`. -/
def ffill (vs : List Value) : List Value := ffillGo none vs

/-- pandas `fillna(method="bfill")`. -/
def bfill (vs : List Value) : List Value := (ffillGo none vs.reverse).reverse

/-- The imputation loop of `preprocess_features` (lines 74–79): numeric
columns get NaN replaced by the column median (a no-op when the column is all
NaN, since the median is then NaN itself); other columns get forward-fill,
then backward-fill, then a zero default. -/
def imputeCol (col : Column) : Column :=
  if isNumericCol col.2 then
    match medianQ (numsOf col.2) with
    | some m => (col.1, fillNaWith m col.2)
    | none => col
  else
    (col.1, (bfill (ffill col.2)).map (fun v =>
      match v with
      | .na => Value.num 0
      | w => w))

/-- `pd.factorize` uniques: distinct non-missing values in first-seen order. -/
def factorizeUniques (vs : List Value) : List Value :=
  vs.foldl (fun acc v => if v = Value.na ∨ acc.contains v then acc else acc ++ [v]) []

/-- `pd.factorize` codes: index of first occurrence; NaN coded as -1. -/
def factorizeCol (vs : List Value) : List Value :=
  let u := factorizeUniques vs
  vs.map (fun v => if v = Value.na then Value.num (-1) else Value.num (u.indexOf v : ℚ))

/-- The object-to-numeric loop of `preprocess_features` (lines 100–105):
a column still holding strings is cast with `pd.to_numeric` when every cell
parses, else integer-encoded by `pd.factorize`. -/
def convertCol (col : Column) : Column :=
  if col.2.any Value.isStr then
    match castNumeric? col.2 with
    | some ws => (col.1, ws)
    | none => (col.1, factorizeCol col.2)
  else col

/-- A fitted `StandardScaler`: per column `(mean, scale)`, `none` standing for
NaN statistics of an all-missing column. -/
structure Scaler where
  stats : List (Option ℚ × Option ℚ)
deriving DecidableEq, Repr

/-- `StandardScaler.fit` statistics of one column: NaN-skipping mean and
population variance; the scale is `sq variance` (numpy square root), with a
zero scale replaced by 1 (`_handle_zeros_in_scale`). -/
def colStats (sq : ℚ → ℚ) (vs : List Value) : Option ℚ × Option ℚ :=
  let ns := numsOf vs
  if ns.isEmpty then (none, none)
  else
    let m := ns.sum / (ns.length : ℚ)
    let s := sq ((ns.map (fun x => (x - m) ^ 2)).sum / (ns.length : ℚ))
    (some m, some (if s = 0 then 1 else s))

/-- `StandardScaler.fit` over all columns of a matrix. -/
def fitStandardScaler (sq : ℚ → ℚ) (X : DataFrame) : Scaler :=
  ⟨X.map (fun col => colStats sq col.2)⟩

/-- `StandardScaler.transform` of one cell: `(x - mean) / scale`; NaN inputs
and NaN statistics propagate NaN. -/
def scaleVal (stat : Option ℚ × Option ℚ) : Value → Value
  | .num x =>
    match stat.1, stat.2 with
    | some m, some s => Value.num ((x - m) / s)
    | _, _ => Value.na
  | .na => Value.na
  | .str s => Value.str s

/-- `StandardScaler.transform` over a matrix, column by column. -/
def applyScaler (S : Scaler) (X : DataFrame) : DataFrame :=
  List.zipWith (fun stat col => (col.1, col.2.map (scaleVal stat))) S.stats X

/-- `df.drop(columns=[TARGET_COL])` (a no-op when absent). -/
def dropTarget (df : DataFrame) : DataFrame :=
  df.filter (fun col => col.1 != TARGET_COL)

/-- Column presence test (`c in df.columns`). -/
def containsCol (df : DataFrame) (c : String) : Bool :=
  df.any (fun col => col.1 == c)

/-- `present_features = [c for c in FEATURE_COLS if c in df.columns]`,
computed after the target column is separated. -/
def presentFeatures (df : DataFrame) : List String :=
  FEATURE_COLS.filter (fun c => containsCol (dropTarget df) c)

/-- `df[c]`: the values of the (first) column named `c`. -/
def getColValues (df : DataFrame) (c : String) : List Value :=
  ((df.find? (fun col => col.1 == c)).map Prod.snd).getD []

/-- `X = df[present_features]`. -/
def selectFeatures (df : DataFrame) : DataFrame :=
  (presentFeatures df).map (fun c => (c, getColValues (dropTarget df) c))

/-- The imputation/encoding path of `preprocess_features` (lines 73–105), in
source order: impute, normalize sex, normalize the fbs/exang flags, convert
leftover object columns to numbers. -/
def encodeFeatures (X : DataFrame) : DataFrame :=
  (((X.map imputeCol).map
      (fun col => if col.1 == "sex" then (col.1, sexNormalize col.2) else col)).map
      (fun col =>
        if col.1 == "fbs" || col.1 == "exang" then
          (col.1, col.2.map (fun v => Value.num (flagNormalize v)))
        else col)).map
    convertCol

/-- The errors `preprocess_features` can raise: the missing-schema
`ValueError` (line 68), the missing-scaler `ValueError` (line 114), the
minimum-samples `ValueError` sklearn's `check_array(ensure_min_samples=1)`
raises when `fit_transform`/`transform` receives a zero-row matrix ("Found
array with 0 sample(s)"), and the feature-count mismatch `ValueError` sklearn
raises when a fitted scaler is applied to a matrix of different width. -/
inductive PreprocessError where
  | schemaError
  | scalerRequired
  | emptyBatch
  | featureMismatch
deriving DecidableEq, Repr

/-- The batch's row count (`len(df)`): the length of the first column, 0 for
a column-free frame. -/
def numRows (X : DataFrame) : Nat :=
  (X.head?.map (fun col => col.2.length)).getD 0

/-- `preprocess_features(df, fit_scaler, scaler)` from `src/preprocess.py`:
separate the target, require at least one canonical feature, impute/encode,
then either fit a fresh scaler (fit mode) or apply the supplied one (apply
mode).  The scaling step models sklearn's validation in source order: the
repository's own missing-scaler raise (line 113) comes before `transform` is
ever called; inside `fit_transform`/`transform`, `check_array` rejects a
zero-row matrix before the fitted-width check. -/
def preprocessFeatures (sq : ℚ → ℚ) (df : DataFrame) (fitMode : Bool)
    (scaler? : Option Scaler) :
    Except PreprocessError (DataFrame × Option (List Value) × Scaler) :=
  let y : Option (List Value) := (df.find? (fun col => col.1 == TARGET_COL)).map Prod.snd
  if (presentFeatures df).isEmpty then .error .schemaError
  else
    let X := encodeFeatures (selectFeatures df)
    if fitMode then
      if numRows X = 0 then .error .emptyBatch
      else
        let S := fitStandardScaler sq X
        .ok (applyScaler S X, y, S)
    else
      match scaler? with
      | none => .error .scalerRequired
      | some S =>
        if numRows X = 0 then .error .emptyBatch
        else if S.stats.length = X.length then .ok (applyScaler S X, y, S)
        else .error .featureMismatch

/-- An arbitrary instantiation of the square-root parameter, used by the
closed concrete-input theorems below; none of the checked properties depend
on its values. -/
def sqId : ℚ → ℚ := fun q => q

lemma fitStandardScaler_length (sq : ℚ → ℚ) (X : DataFrame) :
    (fitStandardScaler sq X).stats.length = X.length := by
  simp [fitStandardScaler]

lemma map_fst_of_preserve (f : Column → Column) (hf : ∀ col, (f col).1 = col.1)
    (X : DataFrame) : (X.map f).map Prod.fst = X.map Prod.fst := by
  induction X with
  | nil => rfl
  | cons c X ih => simp [hf, ih]

lemma imputeCol_fst (col : Column) : (imputeCol col).1 = col.1 := by
  unfold imputeCol
  split
  · split <;> rfl
  · rfl

lemma convertCol_fst (col : Column) : (convertCol col).1 = col.1 := by
  unfold convertCol
  split
  · split <;> rfl
  · rfl

lemma encodeFeatures_names (X : DataFrame) :
    (encodeFeatures X).map Prod.fst = X.map Prod.fst := by
  unfold encodeFeatures
  rw [map_fst_of_preserve _ convertCol_fst]
  rw [map_fst_of_preserve _ (fun col => by split <;> rfl)]
  rw [map_fst_of_preserve _ (fun col => by split <;> rfl)]
  rw [map_fst_of_preserve _ imputeCol_fst]

lemma selectFeatures_names (df : DataFrame) :
    (selectFeatures df).map Prod.fst = presentFeatures df := by
  unfold selectFeatures
  induction presentFeatures df with
  | nil => rfl
  | cons c cs ih => simpa using ih

lemma applyScaler_names :
    ∀ (stats : List (Option ℚ × Option ℚ)) (X : DataFrame),
      stats.length = X.length →
      (applyScaler ⟨stats⟩ X).map Prod.fst = X.map Prod.fst := by
  intro stats
  induction stats with
  | nil =>
    intro X h
    cases X with
    | nil => rfl
    | cons c X => simp at h
  | cons st stats ih =>
    intro X h
    cases X with
    | nil => simp at h
    | cons c X =>
      simp only [List.length_cons, Nat.add_right_cancel_iff] at h
      simpa [applyScaler] using ih X h

lemma preprocess_schema_eval (sq : ℚ → ℚ) (df : DataFrame) (fm : Bool)
    (sc : Option Scaler) (hp : (presentFeatures df).isEmpty = true) :
    preprocessFeatures sq df fm sc = .error .schemaError := by
  unfold preprocessFeatures
  rw [if_pos hp]

lemma preprocess_apply_none_eval (sq : ℚ → ℚ) (df : DataFrame)
    (hp : ¬ (presentFeatures df).isEmpty = true) :
    preprocessFeatures sq df false none = .error .scalerRequired := by
  unfold preprocessFeatures
  rw [if_neg hp]
  rfl

lemma preprocess_apply_some_eval (sq : ℚ → ℚ) (df : DataFrame) (S : Scaler)
    (hp : ¬ (presentFeatures df).isEmpty = true) :
    preprocessFeatures sq df false (some S) =
      (if numRows (encodeFeatures (selectFeatures df)) = 0 then .error .emptyBatch
      else if S.stats.length = (encodeFeatures (selectFeatures df)).length then
        .ok (applyScaler S (encodeFeatures (selectFeatures df)),
          (df.find? (fun col => col.1 == TARGET_COL)).map Prod.snd, S)
      else .error .featureMismatch) := by
  unfold preprocessFeatures
  rw [if_neg hp]
  rfl

lemma preprocess_fit_eval (sq : ℚ → ℚ) (df : DataFrame) (sc : Option Scaler)
    (hp : ¬ (presentFeatures df).isEmpty = true) :
    preprocessFeatures sq df true sc =
      (if numRows (encodeFeatures (selectFeatures df)) = 0 then .error .emptyBatch
      else
        .ok (applyScaler (fitStandardScaler sq (encodeFeatures (selectFeatures df)))
              (encodeFeatures (selectFeatures df)),
            (df.find? (fun col => col.1 == TARGET_COL)).map Prod.snd,
            fitStandardScaler sq (encodeFeatures (selectFeatures df)))) := by
  unfold preprocessFeatures
  rw [if_neg hp]
  rfl

/-- **C8.** Round-trip scaling: if fit-mode preprocessing of a batch returns
matrix `M` and scaler `S`, then apply-mode preprocessing of the same batch
with `S` returns exactly `M` (and the same scaler) — `fit_transform` and
fit-then-`transform` agree on the fitting data. -/
theorem preprocess_roundtrip (sq : ℚ → ℚ) (df : DataFrame) (M : DataFrame)
    (y : Option (List Value)) (S : Scaler)
    (h : preprocessFeatures sq df true none = .ok (M, y, S)) :
    preprocessFeatures sq df false (some S) = .ok (M, y, S) := by
  unfold preprocessFeatures at h ⊢
  by_cases hp : (presentFeatures df).isEmpty
  · rw [if_pos hp] at h
    exact absurd h (by simp)
  · rw [if_neg hp] at h ⊢
    simp only [if_true] at h
    split at h
    next => exact absurd h (by simp)
    next hr =>
      simp only [Except.ok.injEq, Prod.mk.injEq] at h
      obtain ⟨hM, hy, hS⟩ := h
      have hlen : S.stats.length = (encodeFeatures (selectFeatures df)).length := by
        rw [← hS, fitStandardScaler_length]
      simp only [Bool.false_eq_true, if_false]
      rw [if_neg hr, if_pos hlen, ← hS, hM, hy]

/-- Witness for `preprocess_roundtrip`: the single-row batch `{age: 5}` fit
with the identity square root yields the standardized matrix `[[0]]` and
scaler `(mean 5, scale 1)`; applying that scaler back reproduces the matrix. -/
theorem preprocess_roundtrip_witness :
    preprocessFeatures sqId [("age", [Value.num 5])] false
        (some ⟨[(some 5, some 1)]⟩) =
      .ok ([("age", [Value.num 0])], none, ⟨[(some 5, some 1)]⟩) :=
  preprocess_roundtrip sqId [("age", [Value.num 5])] [("age", [Value.num 0])]
    none ⟨[(some 5, some 1)]⟩ (by
      have hpres : ¬ (presentFeatures [("age", [Value.num 5])]).isEmpty = true := by
        decide
      have hX : encodeFeatures (selectFeatures [("age", [Value.num 5])]) =
          [("age", [Value.num 5])] := by decide
      have hfit : fitStandardScaler sqId [("age", [Value.num 5])] =
          ⟨[(some 5, some 1)]⟩ := by
        have hns : numsOf [Value.num 5] = [5] := by decide
        simp only [fitStandardScaler, colStats, hns, List.map_cons, List.map_nil,
          List.sum_cons, List.sum_nil, List.length_cons, List.length_nil,
          List.isEmpty_cons, Bool.false_eq_true, if_false, sqId]
        norm_num
      have happ : applyScaler ⟨[(some 5, some 1)]⟩ [("age", [Value.num 5])] =
          [("age", [Value.num 0])] := by
        norm_num [applyScaler, scaleVal]
      have hy : (List.find? (fun col => col.1 == TARGET_COL)
          [("age", [Value.num 5])]).map Prod.snd = (none : Option (List Value)) := by
        decide
      rw [preprocess_fit_eval sqId _ none hpres, hX]
      rw [if_neg (show ¬ numRows [("age", [Value.num 5])] = 0 by decide)]
      rw [hfit, happ, hy])

/-- One step of the batch-prediction padding loop of `app/streamlit_app.py`
(lines 933–935): `if c not in df_in.columns: df_in[c] = np.nan` — an absent
canonical column is added as an all-missing column of the current row count. -/
def padStep (d : DataFrame) (c : String) : DataFrame :=
  if d.any (fun col => col.1 == c) then d
  else d ++ [(c, List.replicate (numRows d) Value.na)]

/-- The batch-prediction caller's padding: every canonical feature absent from
the uploaded table is added as an all-missing column before preprocessing. -/
def padFeatures (df : DataFrame) : DataFrame := FEATURE_COLS.foldl padStep df

/-- The number of columns of a successful preprocessing result. -/
def outputWidth? :
    Except PreprocessError (DataFrame × Option (List Value) × Scaler) → Option Nat
  | .ok (M, _, _) => some M.length
  | .error _ => none

lemma applyScaler_names' (S : Scaler) (X : DataFrame)
    (h : S.stats.length = X.length) :
    (applyScaler S X).map Prod.fst = X.map Prod.fst := by
  obtain ⟨stats⟩ := S
  exact applyScaler_names stats X h

lemma applyScaler_length (S : Scaler) (X : DataFrame) :
    (applyScaler S X).length = min S.stats.length X.length := by
  simp [applyScaler]

lemma encodeFeatures_length (X : DataFrame) :
    (encodeFeatures X).length = X.length := by
  simp [encodeFeatures]

lemma selectFeatures_length (df : DataFrame) :
    (selectFeatures df).length = (presentFeatures df).length := by
  simp [selectFeatures]

lemma padStep_contains_self (d : DataFrame) (c : String) :
    (padStep d c).any (fun col => col.1 == c) = true := by
  unfold padStep
  split
  next h => exact h
  next h => simp

lemma padStep_mono (d : DataFrame) (c c' : String)
    (h : d.any (fun col => col.1 == c) = true) :
    (padStep d c').any (fun col => col.1 == c) = true := by
  unfold padStep
  split
  next => exact h
  next => simp [List.any_append, h]

lemma foldl_padStep_mono (cs : List String) (d : DataFrame) (c : String)
    (h : d.any (fun col => col.1 == c) = true) :
    (cs.foldl padStep d).any (fun col => col.1 == c) = true := by
  induction cs generalizing d with
  | nil => exact h
  | cons x xs ih => exact ih (padStep d x) (padStep_mono d c x h)

lemma foldl_padStep_contains (cs : List String) (c : String) :
    ∀ (d : DataFrame), c ∈ cs →
      (cs.foldl padStep d).any (fun col => col.1 == c) = true := by
  induction cs with
  | nil => exact fun d hc => absurd hc (List.not_mem_nil c)
  | cons x xs ih =>
    intro d hc
    rcases List.mem_cons.mp hc with h | h
    · subst h
      exact foldl_padStep_mono xs (padStep d c) c (padStep_contains_self d c)
    · exact ih (padStep d x) h

lemma contains_dropTarget (d : DataFrame) (c : String) (hc : c ≠ TARGET_COL)
    (h : d.any (fun col => col.1 == c) = true) :
    containsCol (dropTarget d) c = true := by
  rcases List.any_eq_true.mp h with ⟨col, hmem, hbeq⟩
  apply List.any_eq_true.mpr
  have hname : col.1 = c := by simpa using hbeq
  refine ⟨col, List.mem_filter.mpr ⟨hmem, ?_⟩, hbeq⟩
  simp [hname, hc]

lemma presentFeatures_pad (df : DataFrame) :
    presentFeatures (padFeatures df) = FEATURE_COLS := by
  unfold presentFeatures
  apply List.filter_eq_self.mpr
  intro c hc
  have hct : ∀ x ∈ FEATURE_COLS, x ≠ TARGET_COL := by decide
  exact contains_dropTarget (padFeatures df) c (hct c hc)
    (foldl_padStep_contains FEATURE_COLS c df hc)

/-- **C1 counterexample.**  The claim says the Feature Transformer itself pads
absent canonical fields so its output always has 8 columns; but
`preprocess_features` on a batch holding only the 2 canonical fields `age`
and `sex` returns a 2-column matrix — the padding lives in the
batch-prediction caller, not in the transformer. -/
theorem preprocess_no_padding :
    outputWidth? (preprocessFeatures sqId
        [("age", [Value.num 50]), ("sex", [Value.num 1])] true none) = some 2 ∧
      (2 : Nat) ≠ 8 := by
  constructor
  · have hp : ¬ (presentFeatures
        [("age", [Value.num 50]), ("sex", [Value.num 1])]).isEmpty = true := by
      decide
    have hX : encodeFeatures (selectFeatures
        [("age", [Value.num 50]), ("sex", [Value.num 1])]) =
        [("age", [Value.num 50]), ("sex", [Value.num 1])] := by decide
    rw [preprocess_fit_eval sqId _ none hp, hX]
    rw [if_neg (show ¬ numRows
      [("age", [Value.num 50]), ("sex", [Value.num 1])] = 0 by decide)]
    simp only [outputWidth?, applyScaler_length, fitStandardScaler_length,
      Nat.min_self]
    decide
  · decide

lemma preprocess_ok_names (sq : ℚ → ℚ) (df : DataFrame) (fm : Bool)
    (sc : Option Scaler) (M : DataFrame) (y : Option (List Value)) (S : Scaler)
    (h : preprocessFeatures sq df fm sc = .ok (M, y, S)) :
    M.map Prod.fst = presentFeatures df := by
  by_cases hp : (presentFeatures df).isEmpty
  · rw [preprocess_schema_eval sq df fm sc hp] at h
    exact absurd h (by simp)
  · cases fm with
    | true =>
      rw [preprocess_fit_eval sq df sc hp] at h
      split at h
      next => exact absurd h (by simp)
      next =>
        simp only [Except.ok.injEq, Prod.mk.injEq] at h
        rw [← h.1, applyScaler_names' _ _ (fitStandardScaler_length sq _),
          encodeFeatures_names, selectFeatures_names]
    | false =>
      cases sc with
      | none =>
        rw [preprocess_apply_none_eval sq df hp] at h
        exact absurd h (by simp)
      | some S' =>
        rw [preprocess_apply_some_eval sq df S' hp] at h
        split at h
        next => exact absurd h (by simp)
        next =>
          split at h
          next hlen =>
            simp only [Except.ok.injEq, Prod.mk.injEq] at h
            rw [← h.1, applyScaler_names' _ _ hlen, encodeFeatures_names,
              selectFeatures_names]
          next =>
            exact absurd h (by simp)

/-- **C1 (amended).**  `preprocess_features` does not add absent canonical
fields: any successful run (fit or apply mode) returns a matrix whose columns
are exactly the canonical fields present in the input, in canonical order —
a batch holding 2 canonical fields yields a 2-column matrix.  In the
batch-prediction path the caller first adds every absent canonical field as an
all-missing column, making all 8 canonical fields present, and then calls
apply-mode `preprocess_features` with the persisted scaler; any matrix that
call returns has exactly 8 columns (the call itself can still fail, e.g. on a
zero-row upload or a scaler of the wrong width). -/
theorem preprocess_feature_columns (sq : ℚ → ℚ) (df : DataFrame) (fm : Bool)
    (sc : Option Scaler) :
    (∀ M y S, preprocessFeatures sq df fm sc = .ok (M, y, S) →
        M.map Prod.fst = presentFeatures df) ∧
      presentFeatures (padFeatures df) = FEATURE_COLS ∧
      (∀ S M y S₀,
        preprocessFeatures sq (padFeatures df) false (some S) = .ok (M, y, S₀) →
        M.length = 8) := by
  refine ⟨fun M y S h => preprocess_ok_names sq df fm sc M y S h,
    presentFeatures_pad df, ?_⟩
  intro S M y S₀ h
  have hnames := preprocess_ok_names sq (padFeatures df) false (some S) M y S₀ h
  have hlen : M.length = (M.map Prod.fst).length := (List.length_map M Prod.fst).symm
  rw [hlen, hnames, presentFeatures_pad df]
  decide

/-- Witness for `preprocess_feature_columns`: the fit run on the
`{age, sex}`-only batch returns the matrix with exactly the columns
`["age", "sex"]` — the canonical fields present. -/
theorem preprocess_feature_columns_witness :
    ([("age", [Value.num 0]), ("sex", [Value.num 0])] : DataFrame).map Prod.fst =
      presentFeatures [("age", [Value.num 50]), ("sex", [Value.num 1])] :=
  (preprocess_feature_columns sqId
      [("age", [Value.num 50]), ("sex", [Value.num 1])] true none).1
    [("age", [Value.num 0]), ("sex", [Value.num 0])]
    none ⟨[(some 50, some 1), (some 1, some 1)]⟩ (by
      have hp : ¬ (presentFeatures
          [("age", [Value.num 50]), ("sex", [Value.num 1])]).isEmpty = true := by
        decide
      have hX : encodeFeatures (selectFeatures
          [("age", [Value.num 50]), ("sex", [Value.num 1])]) =
          [("age", [Value.num 50]), ("sex", [Value.num 1])] := by decide
      have hfit : fitStandardScaler sqId
          [("age", [Value.num 50]), ("sex", [Value.num 1])] =
          ⟨[(some 50, some 1), (some 1, some 1)]⟩ := by
        have hns1 : numsOf [Value.num 50] = [50] := by decide
        have hns2 : numsOf [Value.num 1] = [1] := by decide
        simp only [fitStandardScaler, colStats, hns1, hns2, List.map_cons,
          List.map_nil, List.sum_cons, List.sum_nil, List.length_cons,
          List.length_nil, List.isEmpty_cons, Bool.false_eq_true, if_false, sqId]
        norm_num
      have happ : applyScaler ⟨[(some 50, some 1), (some 1, some 1)]⟩
          [("age", [Value.num 50]), ("sex", [Value.num 1])] =
          [("age", [Value.num 0]), ("sex", [Value.num 0])] := by
        norm_num [applyScaler, scaleVal]
      have hy : (List.find? (fun col => col.1 == TARGET_COL)
          [("age", [Value.num 50]), ("sex", [Value.num 1])]).map Prod.snd =
          (none : Option (List Value)) := by decide
      rw [preprocess_fit_eval sqId _ none hp, hX]
      rw [if_neg (show ¬ numRows
        [("age", [Value.num 50]), ("sex", [Value.num 1])] = 0 by decide)]
      rw [hfit, happ, hy])

/-- `bucketize` from `app/streamlit_app.py` (lines 941–946); the single-record
prediction handler (lines 599–604) runs the same if/elif/else chain. -/
def bucketize (low high p : ℚ) : String :=
  if p < low then "Low"
  else if p ≤ high then "Moderate"
  else "High"

/-- **C4.** For thresholds `low < high` and a probability `p ∈ [0, 1]`, the
risk bucketing returns "Low" iff `p < low`, "Moderate" iff `low ≤ p ≤ high`,
and "High" iff `p > high`; in particular both boundary probabilities
`p = low` and `p = high` land in "Moderate". -/
theorem bucketize_spec (low high p : ℚ) (hlh : low < high) (h0 : 0 ≤ p)
    (h1 : p ≤ 1) :
    (bucketize low high p = "Low" ↔ p < low) ∧
      (bucketize low high p = "Moderate" ↔ low ≤ p ∧ p ≤ high) ∧
      (bucketize low high p = "High" ↔ high < p) ∧
      bucketize low high low = "Moderate" ∧
      bucketize low high high = "Moderate" := by
  have hbl : bucketize low high low = "Moderate" := by
    unfold bucketize
    rw [if_neg (lt_irrefl low), if_pos hlh.le]
  have hbh : bucketize low high high = "Moderate" := by
    unfold bucketize
    rw [if_neg (not_lt.mpr hlh.le), if_pos le_rfl]
  refine ⟨?_, ?_, ?_, hbl, hbh⟩
  · unfold bucketize
    split_ifs with ha hb
    · simp [ha]
    · exact ⟨fun hcon => absurd hcon (by decide), fun hp' => absurd hp' ha⟩
    · exact ⟨fun hcon => absurd hcon (by decide), fun hp' => absurd hp' ha⟩
  · unfold bucketize
    split_ifs with ha hb
    · exact ⟨fun hcon => absurd hcon (by decide),
        fun hr => absurd hr.1 (not_le.mpr ha)⟩
    · exact ⟨fun _ => ⟨not_lt.mp ha, hb⟩, fun _ => rfl⟩
    · exact ⟨fun hcon => absurd hcon (by decide), fun hr => absurd hr.2 hb⟩
  · unfold bucketize
    split_ifs with ha hb
    · exact ⟨fun hcon => absurd hcon (by decide),
        fun hh => absurd (hh.trans ha) (not_lt.mpr hlh.le)⟩
    · exact ⟨fun hcon => absurd hcon (by decide), fun hh => absurd hh (not_lt.mpr hb)⟩
    · exact ⟨fun _ => not_le.mp hb, fun _ => rfl⟩

/-- Witness for `bucketize_spec`: with thresholds 1/4 and 3/4, the
probability 1/2 is bucketed "Moderate". -/
theorem bucketize_spec_witness :
    bucketize (1/4) (3/4) (1/2) = "Moderate" :=
  ((bucketize_spec (1/4) (3/4) (1/2) (by norm_num) (by norm_num)
      (by norm_num)).2.1).mpr (by norm_num)

/-- sklearn `confusion_matrix` cell count: pairs with actual label `a` and
predicted label `b` (binary labels modelled as `Bool`). -/
def countPairs (yt yp : List Bool) (a b : Bool) : Nat :=
  (yt.zip yp).countP (fun pr => pr.1 == a && pr.2 == b)

/-- sklearn `confusion_matrix(y_test, y_pred)` for binary labels:
`[[TN, FP], [FN, TP]]` (rows = actual, columns = predicted). -/
def confusionMatrix (yt yp : List Bool) : (Nat × Nat) × (Nat × Nat) :=
  ((countPairs yt yp false false, countPairs yt yp false true),
    (countPairs yt yp true false, countPairs yt yp true true))

/-- sklearn `accuracy_score`: matching pairs over the number of test labels. -/
def accuracyScore (yt yp : List Bool) : ℚ :=
  ((yt.zip yp).countP (fun pr => pr.1 == pr.2) : ℚ) / (yt.length : ℚ)

/-- sklearn `precision_score` with the zero-division default of 0. -/
def precisionScore (yt yp : List Bool) : ℚ :=
  if countPairs yt yp true true + countPairs yt yp false true = 0 then 0
  else (countPairs yt yp true true : ℚ) /
    ((countPairs yt yp true true : ℚ) + (countPairs yt yp false true : ℚ))

/-- sklearn `recall_score` with the zero-division default of 0. -/
def recallScore (yt yp : List Bool) : ℚ :=
  if countPairs yt yp true true + countPairs yt yp true false = 0 then 0
  else (countPairs yt yp true true : ℚ) /
    ((countPairs yt yp true true : ℚ) + (countPairs yt yp true false : ℚ))

/-- sklearn `f1_score` (`2·TP / (2·TP + FP + FN)`) with the zero-division
default of 0. -/
def f1Score (yt yp : List Bool) : ℚ :=
  if 2 * countPairs yt yp true true + countPairs yt yp false true +
      countPairs yt yp true false = 0 then 0
  else (2 * countPairs yt yp true true : ℚ) /
    (2 * (countPairs yt yp true true : ℚ) + (countPairs yt yp false true : ℚ) +
      (countPairs yt yp true false : ℚ))

/-- The Metrics Snapshot assembled by `evaluate_model` in `src/utils.py`
(lines 39–46), taking the classifier's predictions as a list.  The `roc_auc`
entry is omitted from the model: it is computed from `predict_proba` scores,
which no claim under study concerns. -/
structure Metrics where
  accuracy : ℚ
  prec : ℚ
  recl : ℚ
  f1 : ℚ
  confusion_matrix : (Nat × Nat) × (Nat × Nat)
deriving DecidableEq, Repr

/-- `evaluate_model(clf, X_test, y_test)` with the classifier's predictions
supplied as `yPred`. -/
def evaluateModel (yTest yPred : List Bool) : Metrics :=
  { accuracy := accuracyScore yTest yPred
    prec := precisionScore yTest yPred
    recl := recallScore yTest yPred
    f1 := f1Score yTest yPred
    confusion_matrix := confusionMatrix yTest yPred }

lemma countP_match_split (l : List (Bool × Bool)) :
    l.countP (fun pr => pr.1 == pr.2) =
      l.countP (fun pr => pr.1 == false && pr.2 == false) +
        l.countP (fun pr => pr.1 == true && pr.2 == true) := by
  induction l with
  | nil => rfl
  | cons pr l ih =>
    obtain ⟨a, b⟩ := pr
    cases a <;> cases b <;> simp [List.countP_cons, ih] <;> omega

lemma countP_four_split (l : List (Bool × Bool)) :
    l.countP (fun pr => pr.1 == false && pr.2 == false) +
      l.countP (fun pr => pr.1 == false && pr.2 == true) +
      l.countP (fun pr => pr.1 == true && pr.2 == false) +
      l.countP (fun pr => pr.1 == true && pr.2 == true) = l.length := by
  induction l with
  | nil => rfl
  | cons pr l ih =>
    obtain ⟨a, b⟩ := pr
    cases a <;> cases b <;> simp [List.countP_cons, ← ih] <;> omega

/-- **C9.** In every Metrics Snapshot of the evaluator, the accuracy equals
`(TN + TP) / (TN + FP + FN + TP)` exactly, with `[[TN, FP], [FN, TP]]` the
`confusion_matrix` entry of the same snapshot, both computed from the same
test labels and predictions. -/
theorem evaluateModel_accuracy_consistent (yt yp : List Bool)
    (hlen : yt.length = yp.length) (hne : yt ≠ []) :
    (evaluateModel yt yp).accuracy =
      (((evaluateModel yt yp).confusion_matrix.1.1 +
          (evaluateModel yt yp).confusion_matrix.2.2 : ℕ) : ℚ) /
        (((evaluateModel yt yp).confusion_matrix.1.1 +
          (evaluateModel yt yp).confusion_matrix.1.2 +
          (evaluateModel yt yp).confusion_matrix.2.1 +
          (evaluateModel yt yp).confusion_matrix.2.2 : ℕ) : ℚ) := by
  have hzip : (yt.zip yp).length = yt.length := by
    rw [List.length_zip, hlen, Nat.min_self]
  have h4 := countP_four_split (yt.zip yp)
  rw [hzip] at h4
  simp only [evaluateModel, accuracyScore, confusionMatrix, countPairs]
  rw [countP_match_split, h4]

/-- Witness for `evaluateModel_accuracy_consistent`: labels `[1, 0]` with
predictions `[1, 1]` give accuracy 1/2 = (TN + TP) / 2. -/
theorem evaluateModel_accuracy_witness :
    (evaluateModel [true, false] [true, true]).accuracy =
      (((evaluateModel [true, false] [true, true]).confusion_matrix.1.1 +
          (evaluateModel [true, false] [true, true]).confusion_matrix.2.2 : ℕ) : ℚ) /
        (((evaluateModel [true, false] [true, true]).confusion_matrix.1.1 +
          (evaluateModel [true, false] [true, true]).confusion_matrix.1.2 +
          (evaluateModel [true, false] [true, true]).confusion_matrix.2.1 +
          (evaluateModel [true, false] [true, true]).confusion_matrix.2.2 : ℕ) : ℚ) :=
  evaluateModel_accuracy_consistent [true, false] [true, true] (by decide) (by decide)
